import Mathlib

/-!
Shallow embedding of the alert-scheduling subsystem of the medication-reminder
backend (Alert schema: `calculateNextTrigger`, `markTriggered`, `snooze`, and
the derived `status` virtual).

Instants are modelled as milliseconds since the Unix epoch (`Nat`), a single
wall-clock zone.  The JavaScript `Date` operations used by the source reduce to
plain arithmetic in this model:
  - `d.setHours(h, m, 0, 0)` keeps the calendar day of `d` and sets the
    time-of-day to `h:m:00.000`, i.e. `(t / dayMs) * dayMs + h*3600000 + m*60000`;
  - `d.setDate(d.getDate() + 1)` advances by exactly one calendar day, `+ dayMs`;
  - `d.setMinutes(d.getMinutes() + k)` adds `k` minutes, `+ k * 60000`.
The source methods read the clock with `new Date()`; the embedding passes that
instant in as an explicit `now` parameter.
-/

namespace MedAlert

/-- Milliseconds in one calendar day. -/
def dayMs : Nat := 86400000

/-- Milliseconds in one hour. -/
def hourMs : Nat := 3600000

/-- Milliseconds in one minute. -/
def minuteMs : Nat := 60000

/-- The weekday of an instant, JavaScript `getDay()` numbering
(0 = Sunday … 6 = Saturday); day 0 of the epoch (1970-01-01) was a Thursday. -/
def weekdayOfInstant (t : Nat) : Nat := (t / dayMs + 4) % 7

/-- Gregorian leap-year test. -/
def isLeap (y : Nat) : Bool := (y % 4 == 0 && y % 100 != 0) || y % 400 == 0

/-- Number of leap years in the interval `[1, n]`. -/
def leapCount (n : Nat) : Nat := n / 4 - n / 100 + n / 400

/-- Days from 1970-01-01 to January 1 of year `y` (for `y ≥ 1970`). -/
def daysBeforeYear (y : Nat) : Nat :=
  365 * (y - 1970) + (leapCount (y - 1) - leapCount 1969)

/-- Days before the first of month `m` (1-based) within a year. -/
def monthOffset (leap : Bool) (m : Nat) : Nat :=
  let extra := if leap then 1 else 0
  match m with
  | 1 => 0
  | 2 => 31
  | 3 => 59 + extra
  | 4 => 90 + extra
  | 5 => 120 + extra
  | 6 => 151 + extra
  | 7 => 181 + extra
  | 8 => 212 + extra
  | 9 => 243 + extra
  | 10 => 273 + extra
  | 11 => 304 + extra
  | _ => 334 + extra

/-- Day number (days since 1970-01-01) of the civil date `y-m-d`. -/
def daysFromCivil (y m d : Nat) : Nat :=
  daysBeforeYear y + monthOffset (isLeap y) m + (d - 1)

/-- The instant (ms since epoch) of civil date `y-mo-d` at time `h:mi:s`. -/
def mkInstant (y mo d h mi s : Nat) : Nat :=
  daysFromCivil y mo d * dayMs + h * hourMs + mi * minuteMs + s * 1000

/-- Weekday names, as in the `daysOfWeek` enum of the Alert schema. -/
inductive Weekday where
  | monday | tuesday | wednesday | thursday | friday | saturday | sunday
deriving DecidableEq, Repr

/-- JavaScript `getDay()` number of a weekday name (0 = Sunday … 6 = Saturday). -/
def Weekday.toJsDay : Weekday → Nat
  | .sunday => 0
  | .monday => 1
  | .tuesday => 2
  | .wednesday => 3
  | .thursday => 4
  | .friday => 5
  | .saturday => 6

/-- Alert frequency enum: `['daily', 'weekly', 'monthly', 'custom']`. -/
inductive Frequency where
  | daily | weekly | monthly | custom
deriving DecidableEq, Repr

/-- A validated `time` field.  The schema stores `time` as a string matched
against `/^([0-1]?[0-9]|2[0-3]):[0-5][0-9]$/` and the methods parse it with
`split(':').map(Number)`; the embedding keeps the parsed pair.  The regex
guarantees `hours ≤ 23` and `minutes ≤ 59`; these bounds appear as hypotheses
where a theorem needs them. -/
structure TimeOfDay where
  hours : Nat
  minutes : Nat
deriving DecidableEq, Repr

/-- The Alert record (schema fields the scheduling methods touch; the `user`
and `medication` ObjectId references are opaque). -/
structure Alert where
  user : Nat
  medication : Nat
  time : TimeOfDay
  frequency : Frequency
  daysOfWeek : List Weekday
  isActive : Bool
  lastTriggered : Option Nat
  nextTrigger : Option Nat
  message : String
  snoozeTime : Nat
  maxSnoozes : Nat
  currentSnoozes : Nat
deriving DecidableEq, Repr

/-- Derived alert status, the `status` virtual:
`inactive` if `!isActive`, else `overdue` if `currentSnoozes >= maxSnoozes`,
else `active`. -/
inductive Status where
  | inactive | overdue | active
deriving DecidableEq, Repr

/-- The `status` virtual getter. -/
def Alert.status (a : Alert) : Status :=
  if !a.isActive then .inactive
  else if a.maxSnoozes ≤ a.currentSnoozes then .overdue
  else .active

/-- The instant computed by `calculateNextTrigger`: today (the calendar day of
`now`) at the alert's time-of-day with seconds and milliseconds zeroed
(`setHours(hours, minutes, 0, 0)`); if that instant is `<=` `now`, advance by
one calendar day (`setDate(getDate() + 1)`). -/
def nextTriggerInstant (time : TimeOfDay) (now : Nat) : Nat :=
  let c := now / dayMs * dayMs + time.hours * hourMs + time.minutes * minuteMs
  if c ≤ now then c + dayMs else c

/-- The `calculateNextTrigger` method: computes the instant from `this.time`
and the clock (`now`), stores it in `this.nextTrigger`.  Frequency and
`daysOfWeek` are not consulted. -/
def Alert.calculateNextTrigger (a : Alert) (now : Nat) : Alert :=
  { a with nextTrigger := some (nextTriggerInstant a.time now) }

/-- The `markTriggered` method: sets `lastTriggered` to the clock, resets
`currentSnoozes` to 0, then calls `calculateNextTrigger`. -/
def Alert.markTriggered (a : Alert) (now : Nat) : Alert :=
  Alert.calculateNextTrigger
    { a with lastTriggered := some now, currentSnoozes := 0 } now

/-- The single error the `snooze` method can throw:
`new Error('Maximum snoozes reached')`. -/
inductive SnoozeError where
  | maxSnoozesReached
deriving DecidableEq, Repr

/-- The `snooze` method: throws when `currentSnoozes >= maxSnoozes` (before any
mutation), otherwise increments `currentSnoozes` and sets `nextTrigger` to the
clock plus `snoozeTime` minutes (`setMinutes(getMinutes() + this.snoozeTime)`). -/
def Alert.snooze (a : Alert) (now : Nat) : Except SnoozeError Alert :=
  if a.maxSnoozes ≤ a.currentSnoozes then
    .error .maxSnoozesReached
  else
    .ok { a with
            currentSnoozes := a.currentSnoozes + 1,
            nextTrigger := some (now + a.snoozeTime * minuteMs) }

/-- A sequence of `snooze` calls, one per listed call-time, stopping at the
first failure. -/
def Alert.snoozeSeq (a : Alert) : List Nat → Except SnoozeError Alert
  | [] => .ok a
  | n :: rest =>
    match a.snooze n with
    | .ok b => b.snoozeSeq rest
    | .error e => .error e

/-- A concrete Alert record with the schema defaults for the unlisted fields,
used to instantiate theorems at the spec's example scenarios. -/
def mkAlert (time : TimeOfDay) (freq : Frequency) (days : List Weekday)
    (active : Bool) (snoozeMin maxSn curSn : Nat) : Alert :=
  { user := 0, medication := 0, time := time, frequency := freq,
    daysOfWeek := days, isActive := active, lastTriggered := none,
    nextTrigger := none, message := "Time to take your medication!",
    snoozeTime := snoozeMin, maxSnoozes := maxSn, currentSnoozes := curSn }

/-- Unfolding of the `status` virtual at `active`. -/
theorem status_active_iff (a : Alert) :
    a.status = Status.active ↔ a.isActive = true ∧ a.currentSnoozes < a.maxSnoozes := by
  unfold Alert.status
  cases a.isActive <;> simp

/-- Unfolding of the `status` virtual at `overdue`. -/
theorem status_overdue_iff (a : Alert) :
    a.status = Status.overdue ↔ a.isActive = true ∧ a.maxSnoozes ≤ a.currentSnoozes := by
  unfold Alert.status
  cases a.isActive <;> simp

/-- A run of successful `snooze` calls: as long as the snooze budget covers the
number of calls, every call succeeds, the counter increases by one per call,
and no other policy field changes. -/
theorem snoozeSeq_ok (a : Alert) (nows : List Nat)
    (h : a.currentSnoozes + nows.length ≤ a.maxSnoozes) :
    ∃ b, a.snoozeSeq nows = Except.ok b ∧
      b.currentSnoozes = a.currentSnoozes + nows.length ∧
      b.isActive = a.isActive ∧ b.maxSnoozes = a.maxSnoozes ∧
      b.snoozeTime = a.snoozeTime := by
  induction nows generalizing a with
  | nil => exact ⟨a, rfl, by simp, rfl, rfl, rfl⟩
  | cons n rest ih =>
    simp only [List.length_cons] at h
    have hlt : ¬ a.maxSnoozes ≤ a.currentSnoozes := by omega
    simp only [Alert.snoozeSeq, Alert.snooze, if_neg hlt]
    obtain ⟨b, hb, h1, h2, h3, h4⟩ :=
      ih { a with currentSnoozes := a.currentSnoozes + 1,
                  nextTrigger := some (n + a.snoozeTime * minuteMs) }
        (show a.currentSnoozes + 1 + rest.length ≤ a.maxSnoozes by omega)
    refine ⟨b, hb, ?_, h2, h3, h4⟩
    have h1b : b.currentSnoozes = a.currentSnoozes + 1 + rest.length := h1
    simp only [List.length_cons]
    omega

/-- C1: for every alert with a valid schedule (`time` within the `HH:MM`
bounds enforced by the schema regex) and every reference instant `now`, the
next-trigger computation stores an instant strictly greater than `now`, never
equal to it. -/
theorem C1_nextTrigger_strictly_future (a : Alert) (now : Nat)
    (hh : a.time.hours ≤ 23) (hm : a.time.minutes ≤ 59) :
    ∃ t, (a.calculateNextTrigger now).nextTrigger = some t ∧ now < t := by
  refine ⟨nextTriggerInstant a.time now, rfl, ?_⟩
  simp only [nextTriggerInstant, dayMs, hourMs, minuteMs]
  split <;> omega

/-- Witness for C1 at the spec's example input. -/
theorem C1_witness :
    ∃ t, ((mkAlert ⟨8, 0⟩ Frequency.daily [] true 15 3 0).calculateNextTrigger
        (mkInstant 2024 1 1 9 0 0)).nextTrigger = some t ∧
      mkInstant 2024 1 1 9 0 0 < t :=
  C1_nextTrigger_strictly_future _ _ (by decide) (by decide)

/-- C2: for every daily-frequency alert, the computed trigger keeps the
alert's time-of-day (its offset within the day equals `hours:minutes`), and it
falls on `now`'s calendar day when today-at-time is strictly after `now`,
otherwise on the next calendar day; in particular, a daily 08:00 alert
computed at 2024-01-01T09:00 yields 2024-01-02T08:00, and computed at
2024-01-01T07:00 yields 2024-01-01T08:00. -/
theorem C2_daily_nextTrigger (a : Alert) (now : Nat)
    (_hf : a.frequency = Frequency.daily)
    (hh : a.time.hours ≤ 23) (hm : a.time.minutes ≤ 59) :
    (∃ t, (a.calculateNextTrigger now).nextTrigger = some t ∧
      t % dayMs = a.time.hours * hourMs + a.time.minutes * minuteMs ∧
      ((now < now / dayMs * dayMs + a.time.hours * hourMs + a.time.minutes * minuteMs ∧
          t / dayMs = now / dayMs) ∨
       (now / dayMs * dayMs + a.time.hours * hourMs + a.time.minutes * minuteMs ≤ now ∧
          t / dayMs = now / dayMs + 1))) ∧
    ((mkAlert ⟨8, 0⟩ Frequency.daily [] true 15 3 0).calculateNextTrigger
        (mkInstant 2024 1 1 9 0 0)).nextTrigger = some (mkInstant 2024 1 2 8 0 0) ∧
    ((mkAlert ⟨8, 0⟩ Frequency.daily [] true 15 3 0).calculateNextTrigger
        (mkInstant 2024 1 1 7 0 0)).nextTrigger = some (mkInstant 2024 1 1 8 0 0) := by
  refine ⟨⟨nextTriggerInstant a.time now, rfl, ?_, ?_⟩, by decide, by decide⟩ <;>
    simp only [nextTriggerInstant, dayMs, hourMs, minuteMs] at hh hm ⊢ <;>
    split <;> omega

/-- Witness for C2 at the spec's example input. -/
theorem C2_witness :
    ((mkAlert ⟨8, 0⟩ Frequency.daily [] true 15 3 0).calculateNextTrigger
        (mkInstant 2024 1 1 9 0 0)).nextTrigger = some (mkInstant 2024 1 2 8 0 0) :=
  (C2_daily_nextTrigger (mkAlert ⟨8, 0⟩ Frequency.daily [] true 15 3 0)
    (mkInstant 2024 1 1 9 0 0) rfl (by decide) (by decide)).2.1

/-- C3 counterexample: a monthly-frequency alert for 08:00 on 2024-03-31 (a
day-31 date, with 30-day April next) whose today-at-time instant 08:00 is at
or before `now` = 09:00.  The claim says the trigger advances to the same
day-of-month next month clamped to April 30; the code instead stores
2024-04-01T08:00, which differs from 2024-04-30T08:00. -/
theorem C3_counterexample :
    mkInstant 2024 3 31 8 0 0 ≤ mkInstant 2024 3 31 9 0 0 ∧
    ((mkAlert ⟨8, 0⟩ Frequency.monthly [] true 15 3 0).calculateNextTrigger
        (mkInstant 2024 3 31 9 0 0)).nextTrigger = some (mkInstant 2024 4 1 8 0 0) ∧
    mkInstant 2024 4 1 8 0 0 ≠ mkInstant 2024 4 30 8 0 0 := by
  refine ⟨by decide, rfl, by decide⟩

/-- C3 amended: for every monthly-frequency alert with a valid time whose
today-at-time instant is at or before `now`, the next-trigger computation
advances by exactly one calendar day — identical to the daily case; it never
moves to the next month and performs no day-of-month clamping (the frequency
field is not consulted). -/
theorem C3_monthly_advances_one_day (a : Alert) (now : Nat)
    (_hf : a.frequency = Frequency.monthly)
    (hh : a.time.hours ≤ 23) (hm : a.time.minutes ≤ 59)
    (hpast : now / dayMs * dayMs + a.time.hours * hourMs + a.time.minutes * minuteMs ≤ now) :
    ∃ t, (a.calculateNextTrigger now).nextTrigger = some t ∧
      t / dayMs = now / dayMs + 1 ∧
      t % dayMs = a.time.hours * hourMs + a.time.minutes * minuteMs := by
  refine ⟨nextTriggerInstant a.time now, rfl, ?_, ?_⟩ <;>
    simp only [nextTriggerInstant, dayMs, hourMs, minuteMs] at hpast hh hm ⊢ <;>
    rw [if_pos (by omega)] <;> omega

/-- Witness for the amended C3 at the counterexample's input. -/
theorem C3_witness :
    ∃ t, ((mkAlert ⟨8, 0⟩ Frequency.monthly [] true 15 3 0).calculateNextTrigger
        (mkInstant 2024 3 31 9 0 0)).nextTrigger = some t ∧
      t / dayMs = mkInstant 2024 3 31 9 0 0 / dayMs + 1 ∧
      t % dayMs = 8 * hourMs + 0 * minuteMs :=
  C3_monthly_advances_one_day (mkAlert ⟨8, 0⟩ Frequency.monthly [] true 15 3 0)
    (mkInstant 2024 3 31 9 0 0) rfl (by decide) (by decide) (by decide)

/-- C4 counterexample: a custom-frequency alert with `daysOfWeek = [monday]`
computed at `now` = Wednesday 2024-01-03T09:00.  The claim says the trigger's
weekday lies in `daysOfWeek`; the code stores Thursday 2024-01-04T08:00, whose
weekday (4, JavaScript numbering) is not Monday's (1). -/
theorem C4_counterexample :
    ((mkAlert ⟨8, 0⟩ Frequency.custom [Weekday.monday] true 15 3 0).calculateNextTrigger
        (mkInstant 2024 1 3 9 0 0)).nextTrigger = some (mkInstant 2024 1 4 8 0 0) ∧
    weekdayOfInstant (mkInstant 2024 1 3 9 0 0) = Weekday.wednesday.toJsDay ∧
    weekdayOfInstant (mkInstant 2024 1 4 8 0 0) = Weekday.thursday.toJsDay ∧
    (([Weekday.monday].map Weekday.toJsDay).contains
        (weekdayOfInstant (mkInstant 2024 1 4 8 0 0))) = false := by
  refine ⟨rfl, by decide, by decide, by decide⟩

/-- C4 amended: the next-trigger computation never consults `frequency` or
`daysOfWeek`: for every alert it stores the same instant as for the
daily-frequency empty-`daysOfWeek` variant of the same alert, and in
particular a custom-frequency alert with an empty `daysOfWeek` set raises no
error — a trigger instant is always produced. -/
theorem C4_custom_ignores_daysOfWeek (a : Alert) (now : Nat) :
    ((a.calculateNextTrigger now).nextTrigger =
      (({ a with frequency := Frequency.daily,
                 daysOfWeek := [] } : Alert).calculateNextTrigger now).nextTrigger) ∧
    ∃ t, (({ a with frequency := Frequency.custom,
                    daysOfWeek := [] } : Alert).calculateNextTrigger now).nextTrigger
          = some t :=
  ⟨rfl, nextTriggerInstant a.time now, rfl⟩

/-- C5: `snooze` fails (with the snooze-limit error, the only error it can
raise) exactly when `currentSnoozes >= maxSnoozes`, the failing branch throws
before mutating anything; consequently, from a fresh `Armed` alert
(`currentSnoozes = 0`, status `active`), a run of `maxSnoozes` snooze calls
succeeds and leaves the alert `overdue`, and any further snooze call fails. -/
theorem C5_snooze_limit (a : Alert) (nows : List Nat)
    (h0 : a.currentSnoozes = 0) (hA : a.status = Status.active)
    (hlen : nows.length = a.maxSnoozes) :
    (∀ b : Alert, ∀ n : Nat,
        b.snooze n = Except.error SnoozeError.maxSnoozesReached ↔
          b.maxSnoozes ≤ b.currentSnoozes) ∧
    ∃ b, a.snoozeSeq nows = Except.ok b ∧
      b.currentSnoozes = a.maxSnoozes ∧ b.status = Status.overdue ∧
      ∀ n, b.snooze n = Except.error SnoozeError.maxSnoozesReached := by
  have hiff : ∀ b : Alert, ∀ n : Nat,
      b.snooze n = Except.error SnoozeError.maxSnoozesReached ↔
        b.maxSnoozes ≤ b.currentSnoozes := by
    intro b n
    unfold Alert.snooze
    split
    · simp_all
    · simp_all
  obtain ⟨hact, hlt⟩ := (status_active_iff a).mp hA
  obtain ⟨b, hb, h1, h2, h3, h4⟩ := snoozeSeq_ok a nows (by omega)
  refine ⟨hiff, b, hb, by omega, ?_, fun n => (hiff b n).mpr (by omega)⟩
  exact (status_overdue_iff b).mpr ⟨by rw [h2, hact], by omega⟩

/-- Witness for C5: a fresh alert with `maxSnoozes = 3` and three snooze
calls. -/
theorem C5_witness :
    ∃ b, (mkAlert ⟨8, 0⟩ Frequency.daily [] true 15 3 0).snoozeSeq [0, 0, 0]
        = Except.ok b ∧
      b.currentSnoozes = 3 ∧ b.status = Status.overdue ∧
      ∀ n, b.snooze n = Except.error SnoozeError.maxSnoozesReached :=
  (C5_snooze_limit (mkAlert ⟨8, 0⟩ Frequency.daily [] true 15 3 0) [0, 0, 0]
    rfl (by decide) rfl).2

/-- C6: every successful `snooze` call increments `currentSnoozes` by exactly
one and sets `nextTrigger` to the call-time `now` plus `snoozeTime` minutes;
with `maxSnoozes = 3` and `snoozeTime = 15`, three consecutive calls from a
fresh `Armed` alert — each 15 minutes after the previous — leave
`currentSnoozes = 3`, status `overdue`, and `nextTrigger` 45 cumulative
minutes after the first call-time. -/
theorem C6_snooze_success (a : Alert) (now : Nat)
    (h : a.currentSnoozes < a.maxSnoozes) :
    (∃ b, a.snooze now = Except.ok b ∧
      b.currentSnoozes = a.currentSnoozes + 1 ∧
      b.nextTrigger = some (now + a.snoozeTime * minuteMs)) ∧
    ∀ t0 : Nat, ∃ c, (mkAlert ⟨8, 0⟩ Frequency.daily [] true 15 3 0).snoozeSeq
        [t0, t0 + 15 * minuteMs, t0 + 30 * minuteMs] = Except.ok c ∧
      c.currentSnoozes = 3 ∧ c.status = Status.overdue ∧
      c.nextTrigger = some (t0 + 45 * minuteMs) := by
  constructor
  · have hs : a.snooze now = Except.ok
        { a with currentSnoozes := a.currentSnoozes + 1,
                 nextTrigger := some (now + a.snoozeTime * minuteMs) } := by
      unfold Alert.snooze
      rw [if_neg (by omega)]
    exact ⟨_, hs, rfl, rfl⟩
  · intro t0
    have s1 : (mkAlert ⟨8, 0⟩ Frequency.daily [] true 15 3 0).snooze t0
        = Except.ok { mkAlert ⟨8, 0⟩ Frequency.daily [] true 15 3 0 with
                      currentSnoozes := 1, nextTrigger := some (t0 + 15 * minuteMs) } := by
      unfold Alert.snooze
      rw [if_neg (by decide)]
      rfl
    have h3 : (mkAlert ⟨8, 0⟩ Frequency.daily [] true 15 3 0).snoozeSeq
        [t0, t0 + 15 * minuteMs, t0 + 30 * minuteMs] = Except.ok
        { mkAlert ⟨8, 0⟩ Frequency.daily [] true 15 3 0 with
          currentSnoozes := 3,
          nextTrigger := some (t0 + 30 * minuteMs + 15 * minuteMs) } := by
      rw [Alert.snoozeSeq, s1]
      rfl
    refine ⟨_, h3, rfl, rfl, ?_⟩
    exact congrArg some (by unfold minuteMs; omega)

/-- Witness for C6 at a fresh alert with `snoozeTime = 15`. -/
theorem C6_witness :
    ∃ b, (mkAlert ⟨8, 0⟩ Frequency.daily [] true 15 3 0).snooze 0 = Except.ok b ∧
      b.currentSnoozes = 0 + 1 ∧ b.nextTrigger = some (0 + 15 * minuteMs) :=
  (C6_snooze_success (mkAlert ⟨8, 0⟩ Frequency.daily [] true 15 3 0) 0 (by decide)).1

/-- C7 counterexample: the schema admits `maxSnoozes = 0` (its declared
minimum).  Such an alert with `currentSnoozes = 0` is in the `overdue` state,
so it satisfies the claim's precondition, yet after `markTriggered` it is
still `overdue` — not `Armed` — because the reset counter `0` already equals
the cap. -/
theorem C7_counterexample :
    (mkAlert ⟨8, 0⟩ Frequency.daily [] true 15 0 0).status = Status.overdue ∧
    ((mkAlert ⟨8, 0⟩ Frequency.daily [] true 15 0 0).markTriggered
        (mkInstant 2024 1 1 9 0 0)).status = Status.overdue ∧
    Status.overdue ≠ Status.active := by
  refine ⟨rfl, rfl, by decide⟩

/-- C7 amended: for every alert in the `active` (Armed) or `overdue` state
with `maxSnoozes ≥ 1`, `markTriggered` sets `lastTriggered` to `now`, resets
`currentSnoozes` to 0, recomputes `nextTrigger`, and leaves the alert in the
`active` (Armed) state; when `maxSnoozes = 0` the alert stays `overdue`
instead, since the reset counter already meets the cap. -/
theorem C7_fire_rearms (a : Alert) (now : Nat)
    (hst : a.status = Status.active ∨ a.status = Status.overdue)
    (hmax : 1 ≤ a.maxSnoozes) :
    (a.markTriggered now).lastTriggered = some now ∧
    (a.markTriggered now).currentSnoozes = 0 ∧
    (a.markTriggered now).nextTrigger = some (nextTriggerInstant a.time now) ∧
    (a.markTriggered now).status = Status.active := by
  have hact : a.isActive = true := by
    rcases hst with h | h
    · exact ((status_active_iff a).mp h).1
    · exact ((status_overdue_iff a).mp h).1
  refine ⟨rfl, rfl, rfl, ?_⟩
  exact (status_active_iff _).mpr ⟨hact, show 0 < a.maxSnoozes by omega⟩

/-- Witness for the amended C7 at an `overdue` alert with its snoozes
exhausted. -/
theorem C7_witness :
    ((mkAlert ⟨8, 0⟩ Frequency.daily [] true 15 3 3).markTriggered 1000).lastTriggered
        = some 1000 ∧
    ((mkAlert ⟨8, 0⟩ Frequency.daily [] true 15 3 3).markTriggered 1000).currentSnoozes
        = 0 ∧
    ((mkAlert ⟨8, 0⟩ Frequency.daily [] true 15 3 3).markTriggered 1000).nextTrigger
        = some (nextTriggerInstant ⟨8, 0⟩ 1000) ∧
    ((mkAlert ⟨8, 0⟩ Frequency.daily [] true 15 3 3).markTriggered 1000).status
        = Status.active :=
  C7_fire_rearms (mkAlert ⟨8, 0⟩ Frequency.daily [] true 15 3 3) 1000
    (Or.inr rfl) (by decide)

/-- C8 counterexample: an alert in the `inactive` state with snoozes to
spare.  The claim says `snooze` must fail with a state-transition error and
leave the alert unchanged; the code has no state check — the call succeeds,
increments the counter, and moves `nextTrigger`. -/
theorem C8_counterexample :
    (mkAlert ⟨8, 0⟩ Frequency.daily [] false 15 3 0).status = Status.inactive ∧
    (mkAlert ⟨8, 0⟩ Frequency.daily [] false 15 3 0).snooze 300000 =
      Except.ok { mkAlert ⟨8, 0⟩ Frequency.daily [] false 15 3 0 with
                    currentSnoozes := 1,
                    nextTrigger := some (300000 + 15 * minuteMs) } := by
  refine ⟨rfl, rfl⟩

/-- C8 amended: `snooze` performs no lifecycle-state check: for every alert in
the `inactive` state with `currentSnoozes < maxSnoozes`, the call succeeds,
incrementing `currentSnoozes` and setting `nextTrigger` to `now` plus
`snoozeTime` minutes, while the alert stays inactive; the only failure
`snooze` can raise is the snooze-limit error, when
`currentSnoozes >= maxSnoozes`. -/
theorem C8_snooze_no_state_check (a : Alert) (now : Nat)
    (hI : a.isActive = false) (h : a.currentSnoozes < a.maxSnoozes) :
    a.status = Status.inactive ∧
    ∃ b, a.snooze now = Except.ok b ∧
      b.currentSnoozes = a.currentSnoozes + 1 ∧
      b.nextTrigger = some (now + a.snoozeTime * minuteMs) ∧
      b.isActive = false := by
  constructor
  · unfold Alert.status
    rw [hI]
    rfl
  · have hs : a.snooze now = Except.ok
        { a with currentSnoozes := a.currentSnoozes + 1,
                 nextTrigger := some (now + a.snoozeTime * minuteMs) } := by
      unfold Alert.snooze
      rw [if_neg (by omega)]
    exact ⟨_, hs, rfl, rfl, hI⟩

/-- Witness for the amended C8 at an inactive alert with an unused snooze
budget. -/
theorem C8_witness :
    (mkAlert ⟨8, 0⟩ Frequency.daily [] false 15 3 0).status = Status.inactive ∧
    ∃ b, (mkAlert ⟨8, 0⟩ Frequency.daily [] false 15 3 0).snooze 300000
        = Except.ok b ∧
      b.currentSnoozes = 0 + 1 ∧
      b.nextTrigger = some (300000 + 15 * minuteMs) ∧
      b.isActive = false :=
  C8_snooze_no_state_check (mkAlert ⟨8, 0⟩ Frequency.daily [] false 15 3 0) 300000
    rfl (by decide)

/-- C9: the invariant `currentSnoozes ≤ maxSnoozes` (the lower bound 0 holds
by the `Nat` counter) is preserved by every lifecycle operation:
`calculateNextTrigger` leaves the counter alone, `markTriggered` resets it to
0 (which never exceeds the cap), and a successful `snooze` lands at or below
the cap because the over-cap branch throws instead. -/
theorem C9_snooze_cap_invariant (a : Alert) (now : Nat)
    (hinv : a.currentSnoozes ≤ a.maxSnoozes) :
    (a.calculateNextTrigger now).currentSnoozes ≤ (a.calculateNextTrigger now).maxSnoozes ∧
    (a.markTriggered now).currentSnoozes = 0 ∧
    (a.markTriggered now).currentSnoozes ≤ (a.markTriggered now).maxSnoozes ∧
    ∀ b, a.snooze now = Except.ok b → b.currentSnoozes ≤ b.maxSnoozes := by
  refine ⟨hinv, rfl, Nat.zero_le _, ?_⟩
  intro b hb
  unfold Alert.snooze at hb
  split at hb
  · cases hb
  · rename_i hlt
    cases hb
    show a.currentSnoozes + 1 ≤ a.maxSnoozes
    omega

/-- Witness for C9 at a concrete alert inside the invariant. -/
theorem C9_witness :
    ((mkAlert ⟨8, 0⟩ Frequency.daily [] true 15 3 1).calculateNextTrigger 1000).currentSnoozes
        ≤ ((mkAlert ⟨8, 0⟩ Frequency.daily [] true 15 3 1).calculateNextTrigger 1000).maxSnoozes ∧
    ((mkAlert ⟨8, 0⟩ Frequency.daily [] true 15 3 1).markTriggered 1000).currentSnoozes = 0 ∧
    ((mkAlert ⟨8, 0⟩ Frequency.daily [] true 15 3 1).markTriggered 1000).currentSnoozes
        ≤ ((mkAlert ⟨8, 0⟩ Frequency.daily [] true 15 3 1).markTriggered 1000).maxSnoozes ∧
    ∀ b, (mkAlert ⟨8, 0⟩ Frequency.daily [] true 15 3 1).snooze 1000 = Except.ok b →
      b.currentSnoozes ≤ b.maxSnoozes :=
  C9_snooze_cap_invariant (mkAlert ⟨8, 0⟩ Frequency.daily [] true 15 3 1) 1000 (by decide)

/-- C10: the next-trigger computation is deterministic in its inputs — the
stored instant is a pure function of the alert's `time` field and the passed
reference instant `now` (the source's `new Date()` clock read is exactly this
`now` parameter); two alerts agreeing on `time`, evaluated at the same `now`,
receive the identical trigger instant whatever their other fields. -/
theorem C10_deterministic (a1 a2 : Alert) (now : Nat) (ht : a1.time = a2.time) :
    (a1.calculateNextTrigger now).nextTrigger = (a2.calculateNextTrigger now).nextTrigger := by
  show some (nextTriggerInstant a1.time now) = some (nextTriggerInstant a2.time now)
  rw [ht]

/-- Witness for C10: two alerts sharing only the `time` field. -/
theorem C10_witness :
    ((mkAlert ⟨8, 0⟩ Frequency.daily [] true 15 3 0).calculateNextTrigger
        (mkInstant 2024 1 1 9 0 0)).nextTrigger =
    ((mkAlert ⟨8, 0⟩ Frequency.custom [Weekday.monday] false 30 5 2).calculateNextTrigger
        (mkInstant 2024 1 1 9 0 0)).nextTrigger :=
  C10_deterministic (mkAlert ⟨8, 0⟩ Frequency.daily [] true 15 3 0)
    (mkAlert ⟨8, 0⟩ Frequency.custom [Weekday.monday] false 30 5 2)
    (mkInstant 2024 1 1 9 0 0) rfl

end MedAlert
